import Mathlib

/-!
Shallow embedding of the alert escalation subsystem
(`src/notification_system/escalation.py`) and the channel rate limiter
(`src/notification_system/notifications.py`).

Timestamps are modelled as integer seconds (`Int`); the Python code computes
`(now - last).total_seconds() / 60` and compares against a minute count, which
over integer-second timestamps is exactly `60 * minutes ≤ now - last`.
The Python `timedelta.seconds` attribute (used by the rate limiter) is the
duration's seconds component, i.e. the total seconds modulo 86400.
-/

namespace Rockfall

/-- Ordered escalation levels, from `EscalationLevel` in escalation.py. -/
inductive EscalationLevel where
  | level_1
  | level_2
  | level_3
  | level_4
deriving DecidableEq

/-- String value of a level, mirroring the Python enum `.value`. -/
def EscalationLevel.value : EscalationLevel → String
  | .level_1 => "level_1"
  | .level_2 => "level_2"
  | .level_3 => "level_3"
  | .level_4 => "level_4"

/-- Numeric rank of a level, used to state monotonicity. -/
def EscalationLevel.toNat : EscalationLevel → Nat
  | .level_1 => 1
  | .level_2 => 2
  | .level_3 => 3
  | .level_4 => 4

/-- Rule for alert escalation, from the `EscalationRule` dataclass. -/
structure EscalationRule where
  severity : String
  initial_level : EscalationLevel
  escalation_time_minutes : Nat
  max_level : EscalationLevel
  auto_escalate : Bool := true
  require_acknowledgment : Bool := true
deriving DecidableEq

/-- The rule registered for severity "low". -/
def lowRule : EscalationRule :=
  { severity := "low", initial_level := .level_1, escalation_time_minutes := 60,
    max_level := .level_2, require_acknowledgment := false }

/-- The rule registered for severity "medium". -/
def mediumRule : EscalationRule :=
  { severity := "medium", initial_level := .level_1, escalation_time_minutes := 30,
    max_level := .level_3, require_acknowledgment := true }

/-- The rule registered for severity "high". -/
def highRule : EscalationRule :=
  { severity := "high", initial_level := .level_1, escalation_time_minutes := 15,
    max_level := .level_4, require_acknowledgment := true }

/-- The rule registered for severity "critical". -/
def criticalRule : EscalationRule :=
  { severity := "critical", initial_level := .level_1, escalation_time_minutes := 5,
    max_level := .level_4, require_acknowledgment := true, auto_escalate := true }

/-- The `self.escalation_rules` dictionary: severity string to rule. -/
def escalation_rules (s : String) : Option EscalationRule :=
  if s = "low" then some lowRule
  else if s = "medium" then some mediumRule
  else if s = "high" then some highRule
  else if s = "critical" then some criticalRule
  else none

/-- One contact entry of `self.contact_groups`. -/
structure Contact where
  name : String
  email : String
  phone : String
  role : String
deriving DecidableEq

/-- The `self.contact_groups` dictionary: level to contact list. -/
def contact_groups : EscalationLevel → List Contact
  | .level_1 =>
      [{ name := "Site Operator 1", email := "operator1@mining-site.com",
         phone := "+1234567890", role := "Site Operator" },
       { name := "Site Operator 2", email := "operator2@mining-site.com",
         phone := "+1234567891", role := "Site Operator" }]
  | .level_2 =>
      [{ name := "Site Supervisor", email := "supervisor@mining-site.com",
         phone := "+1234567892", role := "Site Supervisor" },
       { name := "Safety Manager", email := "safety@mining-site.com",
         phone := "+1234567893", role := "Safety Manager" }]
  | .level_3 =>
      [{ name := "Regional Manager", email := "regional@mining-company.com",
         phone := "+1234567894", role := "Regional Manager" },
       { name := "Operations Director", email := "operations@mining-company.com",
         phone := "+1234567895", role := "Operations Director" }]
  | .level_4 =>
      [{ name := "Emergency Services", email := "emergency@local-gov.com",
         phone := "+911", role := "Emergency Response" },
       { name := "CEO", email := "ceo@mining-company.com",
         phone := "+1234567896", role := "Chief Executive Officer" }]

/-- Result dictionary built by `_send_level_notifications`. -/
structure NotifResult where
  emails_sent : Nat
  sms_sent : Nat
  total_contacts : Nat
  failed_contacts : List String
deriving DecidableEq

/-- Embedding of `_send_level_notifications`: in the source, every contact at
the level gets one email count, and one SMS count when the phone field is
truthy (non-empty); the demo-mode loop body cannot fail, so
`failed_contacts` stays empty. -/
def send_level_notifications (level : EscalationLevel) : NotifResult :=
  let contacts := contact_groups level
  { emails_sent := contacts.length
    sms_sent := (contacts.filter (fun c => c.phone ≠ "")).length
    total_contacts := contacts.length
    failed_contacts := [] }

/-- Acknowledgment record appended by `acknowledge_alert`. -/
structure Ack where
  acknowledged_by : String
  acknowledged_at : Int
  level : EscalationLevel
deriving DecidableEq

/-- Entry of the `notifications_sent` audit list. -/
structure DispatchRecord where
  level : EscalationLevel
  timestamp : Int
  result : NotifResult
deriving DecidableEq

/-- The mutable escalation record held in `self.active_escalations`.
The Python dict gains `resolved_at` / `resolved_by` keys only on resolution;
those are `Option` fields, `none` initially. -/
structure Escalation where
  alert_id : String
  current_level : EscalationLevel
  rule : EscalationRule
  started_at : Int
  last_escalated_at : Int
  acknowledgments : List Ack
  notifications_sent : List DispatchRecord
  is_resolved : Bool
  resolved_at : Option Int
  resolved_by : Option String
deriving DecidableEq

/-- The `self.active_escalations` dictionary, as an insertion-ordered
association list with replace-on-assignment semantics. -/
def Store : Type := List (String × Escalation)

/-- Dictionary lookup (`dict.get`). -/
def dictGet (st : List (String × Escalation)) (k : String) : Option Escalation :=
  match st with
  | [] => none
  | (k', v) :: rest => if k' = k then some v else dictGet rest k

/-- Dictionary assignment (`dict[k] = v`): replaces the existing entry in
place, appends otherwise, like a Python dict. -/
def dictSet (st : List (String × Escalation)) (k : String) (v : Escalation) :
    List (String × Escalation) :=
  match st with
  | [] => [(k, v)]
  | (k', v') :: rest => if k' = k then (k, v) :: rest else (k', v') :: dictSet rest k v

/-- Number of entries stored under a key; a Python dict always has at most
one, and `dictSet` preserves that. -/
def countKey (st : List (String × Escalation)) (k : String) : Nat :=
  (st.filter (fun p => p.1 = k)).length

/-- The alert input consumed by `initiate_escalation`: `alert.get('id')` and
`alert.get('severity', 'medium')`. -/
structure Alert where
  id : String
  severity : Option String
deriving DecidableEq

/-- The dictionary returned by `initiate_escalation` on success; the
`initial_level` field carries the enum `.value` string, as in the source. -/
structure InitResult where
  escalation_id : String
  initial_level : String
  contacts_notified : Nat
  next_escalation_in : Nat
  status : String
deriving DecidableEq

/-- Embedding of `_get_next_level`: successor in the fixed level order,
`none` past the last level. -/
def get_next_level : EscalationLevel → Option EscalationLevel
  | .level_1 => some .level_2
  | .level_2 => some .level_3
  | .level_3 => some .level_4
  | .level_4 => none

/-- Embedding of `_escalate_to_level`: set the level, stamp
`last_escalated_at`, append the dispatch record. -/
def escalate_to_level (e : Escalation) (level : EscalationLevel) (now : Int) : Escalation :=
  { e with current_level := level
           last_escalated_at := now
           notifications_sent := e.notifications_sent ++
             [{ level := level, timestamp := now, result := send_level_notifications level }] }

/-- Embedding of `_escalate_critical_alert`: dispatch to levels 2..4 and set
the level to 4. -/
def escalate_critical_alert (e : Escalation) (now : Int) : Escalation :=
  let e :=
    [EscalationLevel.level_2, EscalationLevel.level_3, EscalationLevel.level_4].foldl
      (fun acc l =>
        { acc with notifications_sent := acc.notifications_sent ++
            [{ level := l, timestamp := now, result := send_level_notifications l }] }) e
  { e with current_level := .level_4 }

/-- Embedding of `initiate_escalation`. The source looks the rule up by
severity (defaulting the severity string to "medium" and falling back to the
medium rule for unknown severities), unconditionally assigns a fresh record
into `active_escalations`, dispatches at the initial level, fans out for
"critical", and returns the result dictionary. Nothing in the translated body
can raise, so the `except` branch returning `status = "failed"` is dead. -/
def initiate_escalation (st : List (String × Escalation)) (alert : Alert) (now : Int) :
    List (String × Escalation) × InitResult :=
  let severity := alert.severity.getD "medium"
  let rule := (escalation_rules severity).getD mediumRule
  let base : Escalation :=
    { alert_id := alert.id
      current_level := rule.initial_level
      rule := rule
      started_at := now
      last_escalated_at := now
      acknowledgments := []
      notifications_sent :=
        [{ level := rule.initial_level, timestamp := now,
           result := send_level_notifications rule.initial_level }]
      is_resolved := false
      resolved_at := none
      resolved_by := none }
  let esc := if severity = "critical" then escalate_critical_alert base now else base
  (dictSet st alert.id esc,
   { escalation_id := alert.id
     initial_level := rule.initial_level.value
     contacts_notified := (contact_groups rule.initial_level).length
     next_escalation_in := rule.escalation_time_minutes
     status := "initiated" })

/-- The per-record acknowledgment append performed by `acknowledge_alert`. -/
def ack_record (e : Escalation) (who : String) (now : Int) : Escalation :=
  { e with acknowledgments := e.acknowledgments ++
      [{ acknowledged_by := who, acknowledged_at := now, level := e.current_level }] }

/-- Embedding of `acknowledge_alert`: missing record logs and returns false;
otherwise the acknowledgment is appended (with no check of `is_resolved`). -/
def acknowledge_alert (st : List (String × Escalation)) (alert_id who : String) (now : Int) :
    List (String × Escalation) × Bool :=
  match dictGet st alert_id with
  | none => (st, false)
  | some e => (dictSet st alert_id (ack_record e who now), true)

/-- The per-record update performed by `resolve_escalation`. -/
def resolve_record (e : Escalation) (who : String) (now : Int) : Escalation :=
  { e with is_resolved := true, resolved_at := some now, resolved_by := some who }

/-- Embedding of `resolve_escalation`: missing record returns false;
otherwise the resolution fields are (re)written and true is returned, with no
check of whether the record was already resolved. -/
def resolve_escalation (st : List (String × Escalation)) (alert_id who : String) (now : Int) :
    List (String × Escalation) × Bool :=
  match dictGet st alert_id with
  | none => (st, false)
  | some e => (dictSet st alert_id (resolve_record e who now), true)

/-- The shared advance block of `check_escalations`: take the next level and
escalate to it when it exists and differs from the current one. -/
def try_advance (now : Int) (e : Escalation) : Escalation × Option EscalationLevel :=
  match get_next_level e.current_level with
  | some next =>
      if next ≠ e.current_level then (escalate_to_level e next now, some next)
      else (e, none)
  | none => (e, none)

/-- The loop body of `check_escalations` for one escalation record: skip
resolved records; when the timeout has elapsed and the level is not the
rule's max, advance if acknowledgment is required and the acknowledgment
list is empty, or unconditionally if acknowledgment is not required. -/
def check_one_escalation (now : Int) (e : Escalation) : Escalation × Option EscalationLevel :=
  if e.is_resolved then (e, none)
  else if 60 * (e.rule.escalation_time_minutes : Int) ≤ now - e.last_escalated_at ∧
          e.current_level ≠ e.rule.max_level then
    if e.rule.require_acknowledgment = true ∧ e.acknowledgments = [] then
      try_advance now e
    else if e.rule.require_acknowledgment = false then
      try_advance now e
    else (e, none)
  else (e, none)

/-- Embedding of `check_escalations`: apply the loop body to every stored
record, collecting (alert id, escalated-to level) for each advance. -/
def check_escalations (st : List (String × Escalation)) (now : Int) :
    List (String × Escalation) × List (String × EscalationLevel) :=
  (st.map (fun p => (p.1, (check_one_escalation now p.2).1)),
   st.filterMap (fun p => ((check_one_escalation now p.2).2).map (fun l => (p.1, l))))

/-- Rate limiter state owned by each notification service in
notifications.py: a sent counter and the last reset time. -/
structure RateLimiterState where
  sent_count : Nat
  last_reset : Int
deriving DecidableEq

/-- Embedding of `_check_rate_limit` (identical in the email and SMS
services): reset the counter when the `timedelta.seconds` component of
`now - last_reset` — the total seconds modulo 86400 — reaches 60, then admit
while the counter is below the configured per-minute limit. -/
def check_rate_limit (limit : Nat) (s : RateLimiterState) (now : Int) :
    Bool × RateLimiterState :=
  let s' := if (now - s.last_reset) % 86400 ≥ 60 then
              { sent_count := 0, last_reset := now } else s
  (decide (s'.sent_count < limit), s')

/-- Embedding of `send_sms`: a rate-limited send that otherwise always
succeeds in demo mode, incrementing the counter on success. -/
def send_sms (limit : Nat) (s : RateLimiterState) (now : Int) :
    Bool × RateLimiterState :=
  match check_rate_limit limit s now with
  | (false, s') => (false, s')
  | (true, s') => (true, { s' with sent_count := s'.sent_count + 1 })

/-- Embedding of `send_email`: the rate limiter runs first, exactly as in
`send_sms`; then the SMTP connect / starttls / send dialog runs inside the
`try` block and can raise. That fallible transport step is modelled by the
`smtp_ok` input: when it fails, the `except` branch returns false without
incrementing the counter, even though the send was under the limit. -/
def send_email (limit : Nat) (s : RateLimiterState) (now : Int) (smtp_ok : Bool) :
    Bool × RateLimiterState :=
  match check_rate_limit limit s now with
  | (false, s') => (false, s')
  | (true, s') =>
      if smtp_ok then (true, { s' with sent_count := s'.sent_count + 1 })
      else (false, s')

/-- A sequence of SMS sends at the given times, returning each call's result. -/
def run_sends (limit : Nat) (s : RateLimiterState) (ts : List Int) : List Bool :=
  match ts with
  | [] => []
  | t :: rest =>
      match send_sms limit s t with
      | (ok, s') => ok :: run_sends limit s' rest

end Rockfall

namespace Rockfall

/-- Looking a key up after assigning it yields the assigned record. -/
theorem dictGet_dictSet_self (st : List (String × Escalation)) (k : String) (v : Escalation) :
    dictGet (dictSet st k v) k = some v := by
  induction st with
  | nil => simp [dictGet, dictSet]
  | cons hd tl ih =>
      obtain ⟨k', v'⟩ := hd
      by_cases h : k' = k
      · simp [dictSet, dictGet, h]
      · simp [dictSet, dictGet, h, ih]

/-- A scheduler pass acts pointwise: the record stored under a key after
`check_escalations` is the old record passed through the loop body. -/
theorem dictGet_check (st : List (String × Escalation)) (now : Int) (k : String) :
    dictGet (check_escalations st now).1 k =
      (dictGet st k).map (fun e => (check_one_escalation now e).1) := by
  induction st with
  | nil => simp [check_escalations, dictGet]
  | cons hd tl ih =>
      obtain ⟨k', v⟩ := hd
      by_cases h : k' = k
      · simp [check_escalations, dictGet, h]
      · simpa [check_escalations, dictGet, h] using ih

/-- Unfolding of `countKey` over a cons cell. -/
theorem countKey_cons (k' : String) (v' : Escalation) (tl : List (String × Escalation))
    (k : String) :
    countKey ((k', v') :: tl) k = (if k' = k then 1 else 0) + countKey tl k := by
  by_cases h : k' = k <;> simp [countKey, List.filter_cons, h] <;> try omega

/-- Assignment keeps the store free of duplicate keys. -/
theorem countKey_dictSet (st : List (String × Escalation)) (k : String) (v : Escalation)
    (h : countKey st k ≤ 1) : countKey (dictSet st k v) k = 1 := by
  induction st with
  | nil => simp [countKey, dictSet, List.filter]
  | cons hd tl ih =>
      obtain ⟨k', v'⟩ := hd
      rw [countKey_cons] at h
      by_cases hk : k' = k
      · subst hk
        have hset : dictSet ((k', v') :: tl) k' v = (k', v) :: tl := by simp [dictSet]
        rw [hset, countKey_cons]
        simp at h ⊢
        omega
      · simp only [if_neg hk, Nat.zero_add] at h
        simp only [dictSet, if_neg hk, countKey_cons, if_neg hk, Nat.zero_add]
        exact ih h

/-- The successor level, when it exists, sits exactly one rank above and
differs from the current level. -/
theorem get_next_level_toNat (l l' : EscalationLevel) (h : get_next_level l = some l') :
    l'.toNat = l.toNat + 1 ∧ l' ≠ l := by
  cases l <;> cases l' <;> simp_all [get_next_level, EscalationLevel.toNat]

/-- The advance block either leaves the record alone or escalates it to the
successor level. -/
theorem try_advance_cases (now : Int) (e : Escalation) :
    (try_advance now e).1 = e ∨ ∃ l, get_next_level e.current_level = some l ∧
      l ≠ e.current_level ∧ (try_advance now e).1 = escalate_to_level e l now := by
  unfold try_advance
  cases h : get_next_level e.current_level with
  | none => exact Or.inl rfl
  | some l =>
      by_cases hne : l = e.current_level
      · exact Or.inl (by simp [hne])
      · exact Or.inr ⟨l, rfl, hne, by simp [hne]⟩

/-- The scheduler loop body either leaves a record alone or escalates it to
the successor of its current level. -/
theorem check_one_cases (now : Int) (e : Escalation) :
    (check_one_escalation now e).1 = e ∨ ∃ l, get_next_level e.current_level = some l ∧
      l ≠ e.current_level ∧ (check_one_escalation now e).1 = escalate_to_level e l now := by
  unfold check_one_escalation
  split_ifs <;> first
    | exact try_advance_cases now e
    | exact Or.inl rfl

end Rockfall

namespace Rockfall

/-- C3: for every unresolved escalation whose rule requires acknowledgment,
a scheduler pass at or after the escalation timeout does not advance the
level once an acknowledgment has been recorded at or after
`last_escalated_at`: the record is returned unchanged with no escalation
event, both by the per-record loop body and through a full
`check_escalations` pass (so an acknowledgment landing in the same tick as
the timeout wins the race). -/
theorem C3_ack_blocks_escalation (st : List (String × Escalation)) (id : String)
    (now : Int) (e : Escalation) (a : Ack)
    (hget : dictGet st id = some e)
    (hres : e.is_resolved = false)
    (hreq : e.rule.require_acknowledgment = true)
    (hmem : a ∈ e.acknowledgments)
    (hafter : e.last_escalated_at ≤ a.acknowledged_at)
    (htimeout : 60 * (e.rule.escalation_time_minutes : Int) ≤ now - e.last_escalated_at) :
    check_one_escalation now e = (e, none) ∧
    dictGet (check_escalations st now).1 id = some e := by
  have hne : e.acknowledgments ≠ [] := List.ne_nil_of_mem hmem
  have hone : check_one_escalation now e = (e, none) := by
    unfold check_one_escalation
    split_ifs with h1 h2 h3 h4
    · rfl
    · exact absurd h3.2 hne
    · exact absurd h4 (by simp [hreq])
    · rfl
    · rfl
  refine ⟨hone, ?_⟩
  rw [dictGet_check, hget]
  simp [hone]

/-- Witness record for C3: a high-severity escalation, acknowledged at the
timeout instant. -/
def c3Esc : Escalation :=
  { alert_id := "w3", current_level := .level_1, rule := highRule, started_at := 0,
    last_escalated_at := 0,
    acknowledgments := [{ acknowledged_by := "op", acknowledged_at := 900, level := .level_1 }],
    notifications_sent := [{ level := .level_1, timestamp := 0,
                             result := send_level_notifications .level_1 }],
    is_resolved := false, resolved_at := none, resolved_by := none }

/-- C3 witness: at the exact 15-minute timeout of the high rule, the
acknowledged escalation is not advanced. -/
theorem C3_witness :
    check_one_escalation 900 c3Esc = (c3Esc, none) ∧
    dictGet (check_escalations [("w3", c3Esc)] 900).1 "w3" = some c3Esc :=
  C3_ack_blocks_escalation [("w3", c3Esc)] "w3" 900 c3Esc
    { acknowledged_by := "op", acknowledged_at := 900, level := .level_1 }
    (by decide) rfl rfl (by decide) (by decide) (by decide)

/-- C10: a single scheduler pass is pointwise, and the loop body advances a
record by at most one level, always to the immediate successor given by
`get_next_level` (one rank up), and never advances a record already at
`level_4`, no matter how much time has elapsed. -/
theorem C10_single_step_advance (st : List (String × Escalation)) (id : String)
    (now : Int) (e : Escalation) :
    (dictGet (check_escalations st now).1 id =
      (dictGet st id).map (fun x => (check_one_escalation now x).1)) ∧
    ((check_one_escalation now e).1.current_level = e.current_level ∨
      (get_next_level e.current_level = some (check_one_escalation now e).1.current_level ∧
       (check_one_escalation now e).1.current_level.toNat = e.current_level.toNat + 1)) ∧
    (e.current_level = .level_4 → (check_one_escalation now e).1.current_level = .level_4) := by
  refine ⟨dictGet_check st now id, ?_, ?_⟩
  · rcases check_one_cases now e with h | ⟨l, hl, hlne, h⟩
    · exact Or.inl (by rw [h])
    · have := get_next_level_toNat e.current_level l hl
      refine Or.inr ⟨?_, ?_⟩
      · rw [h]; simpa [escalate_to_level] using hl
      · rw [h]; simpa [escalate_to_level] using this.1
  · intro h4
    rcases check_one_cases now e with h | ⟨l, hl, hlne, h⟩
    · rw [h, h4]
    · rw [h4] at hl
      simp [get_next_level] at hl

/-- C10 witness: the pointwise store projection and the single-step bounds
instantiated at a concrete record (an acknowledged high-severity record,
which this pass leaves at its current level). -/
theorem C10_witness :
    (dictGet (check_escalations [("w10", c3Esc)] 5).1 "w10" =
      (dictGet [("w10", c3Esc)] "w10").map (fun x => (check_one_escalation 5 x).1)) ∧
    ((check_one_escalation 5 c3Esc).1.current_level = c3Esc.current_level ∨
      (get_next_level c3Esc.current_level = some (check_one_escalation 5 c3Esc).1.current_level ∧
       (check_one_escalation 5 c3Esc).1.current_level.toNat = c3Esc.current_level.toNat + 1)) ∧
    (c3Esc.current_level = .level_4 → (check_one_escalation 5 c3Esc).1.current_level = .level_4) :=
  C10_single_step_advance [("w10", c3Esc)] "w10" 5 c3Esc

end Rockfall

namespace Rockfall

/-- C2 scenario: a low-severity escalation initiated at t=0. -/
def c2St1 : List (String × Escalation) :=
  (initiate_escalation [] { id := "c2", severity := some "low" } 0).1

/-- C2 scenario: the same escalation resolved at t=600. -/
def c2St2 : List (String × Escalation) :=
  (resolve_escalation c2St1 "c2" "res" 600).1

/-- C2 counterexample: a record with `is_resolved = true` is still mutated by
a later `acknowledge_alert`, which appends an acknowledgment (length 0 to 1),
refuting "once resolved is set, no operation changes any field of the record
again". -/
theorem C2_counterexample :
    (dictGet c2St2 "c2").map Escalation.is_resolved = some true ∧
    (dictGet c2St2 "c2").map (fun e => e.acknowledgments.length) = some 0 ∧
    (acknowledge_alert c2St2 "c2" "late" 700).2 = true ∧
    (dictGet (acknowledge_alert c2St2 "c2" "late" 700).1 "c2").map
      (fun e => e.acknowledgments.length) = some 1 := by decide

/-- C2 (amended): across acknowledge, resolve, and one scheduler-tick update,
`current_level` never decreases and `acknowledgments` / `notifications_sent`
are only ever appended to, never truncated or reordered; a tick leaves a
resolved record entirely unchanged. Resolution does not, however, freeze the
record against `acknowledge`/`resolve` themselves (see the counterexample). -/
theorem C2_mutation_invariants :
    (∀ e who now, (ack_record e who now).current_level = e.current_level ∧
      (∃ t, (ack_record e who now).acknowledgments = e.acknowledgments ++ t) ∧
      (ack_record e who now).notifications_sent = e.notifications_sent) ∧
    (∀ e who now, (resolve_record e who now).current_level = e.current_level ∧
      (resolve_record e who now).acknowledgments = e.acknowledgments ∧
      (resolve_record e who now).notifications_sent = e.notifications_sent) ∧
    (∀ e now, e.current_level.toNat ≤ (check_one_escalation now e).1.current_level.toNat ∧
      (∃ t, (check_one_escalation now e).1.notifications_sent = e.notifications_sent ++ t) ∧
      (check_one_escalation now e).1.acknowledgments = e.acknowledgments) ∧
    (∀ e now, e.is_resolved = true → check_one_escalation now e = (e, none)) := by
  refine ⟨?_, ?_, ?_, ?_⟩
  · exact fun e who now => ⟨rfl, ⟨_, rfl⟩, rfl⟩
  · exact fun e who now => ⟨rfl, rfl, rfl⟩
  · intro e now
    rcases check_one_cases now e with hsame | ⟨l, hl, hlne, hadv⟩
    · rw [hsame]
      exact ⟨Nat.le_refl _, ⟨[], by simp⟩, rfl⟩
    · rw [hadv]
      have hstep := (get_next_level_toNat e.current_level l hl).1
      refine ⟨?_, ⟨_, rfl⟩, rfl⟩
      simp only [escalate_to_level]
      omega
  · intro e now h
    unfold check_one_escalation
    simp [h]

/-- C2 witness: a resolved record is left untouched by a scheduler tick. -/
theorem C2_witness :
    check_one_escalation 5000 (resolve_record c3Esc "res" 1000) =
      (resolve_record c3Esc "res" 1000, none) :=
  C2_mutation_invariants.2.2.2 (resolve_record c3Esc "res" 1000) 5000 rfl

/-- C4 scenario: a medium-severity escalation initiated at t=0. -/
def c4St1 : List (String × Escalation) :=
  (initiate_escalation [] { id := "c4", severity := some "medium" } 0).1

/-- C4 scenario: the same escalation resolved once at t=500 by "alice". -/
def c4St2 : List (String × Escalation) :=
  (resolve_escalation c4St1 "c4" "alice" 500).1

/-- C4 counterexample: two sequential resolves return `(true, true)` — the
second does not return false — and the second overwrites `resolved_by` from
"alice" to "bob", so it is not harmless either. -/
theorem C4_counterexample :
    (resolve_escalation c4St1 "c4" "alice" 500).2 = true ∧
    (resolve_escalation c4St2 "c4" "bob" 900).2 = true ∧
    (dictGet c4St2 "c4").map Escalation.resolved_by = some (some "alice") ∧
    (dictGet (resolve_escalation c4St2 "c4" "bob" 900).1 "c4").map Escalation.resolved_by
      = some (some "bob") := by decide

/-- C4 (amended): `resolve_escalation` returns true whenever any record for
the alert id exists — resolved or not — rewriting `is_resolved`,
`resolved_at` and `resolved_by`; it returns false (leaving the store
unchanged) only when no record exists. Hence a second sequential resolve
returns true again, overwriting the resolution fields, rather than the
claimed `(true, false)` no-op. -/
theorem C4_resolve_behavior (st : List (String × Escalation)) (id who : String) (now : Int) :
    (∀ e, dictGet st id = some e →
      (resolve_escalation st id who now).2 = true ∧
      dictGet (resolve_escalation st id who now).1 id = some (resolve_record e who now)) ∧
    (dictGet st id = none → resolve_escalation st id who now = (st, false)) := by
  refine ⟨fun e he => ?_, fun he => ?_⟩
  · simp [resolve_escalation, he, dictGet_dictSet_self]
  · simp [resolve_escalation, he]

/-- C4 witness: resolving an existing (already resolved) record returns true
and rewrites the resolution fields; resolving in an empty store returns
false. -/
theorem C4_witness :
    ((resolve_escalation [("w4", resolve_record c3Esc "alice" 10)] "w4" "bob" 20).2 = true ∧
     dictGet (resolve_escalation [("w4", resolve_record c3Esc "alice" 10)] "w4" "bob" 20).1 "w4"
       = some (resolve_record (resolve_record c3Esc "alice" 10) "bob" 20)) ∧
    resolve_escalation [] "w4" "bob" 20 = ([], false) :=
  ⟨(C4_resolve_behavior [("w4", resolve_record c3Esc "alice" 10)] "w4" "bob" 20).1
      (resolve_record c3Esc "alice" 10) (by decide),
   (C4_resolve_behavior [] "w4" "bob" 20).2 rfl⟩

/-- C9 scenario: a medium-severity escalation initiated at t=0. -/
def c9St1 : List (String × Escalation) :=
  (initiate_escalation [] { id := "c9", severity := some "medium" } 0).1

/-- C9 scenario: the same escalation resolved at t=100. -/
def c9St2 : List (String × Escalation) :=
  (resolve_escalation c9St1 "c9" "res" 100).1

/-- C9 counterexample: acknowledging an already-resolved alert is not a
no-op — it returns true and appends an acknowledgment to the resolved
record, refuting "acknowledging an unknown or already-resolved alert is a
no-op that does not change any state". -/
theorem C9_counterexample :
    (dictGet c9St2 "c9").map Escalation.is_resolved = some true ∧
    (acknowledge_alert c9St2 "c9" "late" 200).2 = true ∧
    (dictGet c9St2 "c9").map (fun e => e.acknowledgments.length) = some 0 ∧
    (dictGet (acknowledge_alert c9St2 "c9" "late" 200).1 "c9").map
      (fun e => e.acknowledgments.length) = some 1 := by decide

/-- C9 (amended): for an alert id with no record at all, both
`acknowledge_alert` and `resolve_escalation` return false, raise nothing,
and leave the store unchanged. Resolved records, however, stay in the store
and acknowledging one returns true and appends the acknowledgment. -/
theorem C9_unknown_alert_noop (st : List (String × Escalation)) (id who : String) (now : Int) :
    (dictGet st id = none →
      acknowledge_alert st id who now = (st, false) ∧
      resolve_escalation st id who now = (st, false)) ∧
    (∀ e, dictGet st id = some e → e.is_resolved = true →
      (acknowledge_alert st id who now).2 = true ∧
      dictGet (acknowledge_alert st id who now).1 id = some (ack_record e who now)) := by
  refine ⟨fun he => ⟨?_, ?_⟩, fun e he _ => ⟨?_, ?_⟩⟩ <;>
    simp [acknowledge_alert, resolve_escalation, he, dictGet_dictSet_self]

/-- C9 witness: both calls return false on an empty store; acknowledging a
resolved record returns true and appends. -/
theorem C9_witness :
    (acknowledge_alert [] "w9" "who" 3 = ([], false) ∧
     resolve_escalation [] "w9" "who" 3 = ([], false)) ∧
    ((acknowledge_alert [("w9", resolve_record c3Esc "r" 1)] "w9" "who" 3).2 = true ∧
     dictGet (acknowledge_alert [("w9", resolve_record c3Esc "r" 1)] "w9" "who" 3).1 "w9" =
       some (ack_record (resolve_record c3Esc "r" 1) "who" 3)) :=
  ⟨(C9_unknown_alert_noop [] "w9" "who" 3).1 rfl,
   (C9_unknown_alert_noop [("w9", resolve_record c3Esc "r" 1)] "w9" "who" 3).2
     (resolve_record c3Esc "r" 1) (by decide) rfl⟩

end Rockfall

namespace Rockfall

/-- Field-by-field effect of the critical fan-out: only `current_level` and
`notifications_sent` change. -/
theorem escalate_critical_fields (e : Escalation) (now : Int) :
    (escalate_critical_alert e now).alert_id = e.alert_id ∧
    (escalate_critical_alert e now).acknowledgments = e.acknowledgments ∧
    (escalate_critical_alert e now).is_resolved = e.is_resolved ∧
    (escalate_critical_alert e now).started_at = e.started_at ∧
    (escalate_critical_alert e now).rule = e.rule ∧
    (escalate_critical_alert e now).current_level = .level_4 ∧
    (escalate_critical_alert e now).notifications_sent = e.notifications_sent ++
      [{ level := .level_2, timestamp := now, result := send_level_notifications .level_2 },
       { level := .level_3, timestamp := now, result := send_level_notifications .level_3 },
       { level := .level_4, timestamp := now, result := send_level_notifications .level_4 }] := by
  refine ⟨rfl, rfl, rfl, rfl, rfl, rfl, ?_⟩
  simp [escalate_critical_alert]

/-- C1 scenario: a high-severity escalation initiated at t=0. -/
def c1St1 : List (String × Escalation) :=
  (initiate_escalation [] { id := "c1", severity := some "high" } 0).1

/-- C1 scenario: the same escalation acknowledged at t=300 (so it is active,
unresolved, and carries one acknowledgment). -/
def c1St2 : List (String × Escalation) :=
  (acknowledge_alert c1St1 "c1" "op" 300).1

/-- C1 counterexample: with an active, unresolved escalation for "c1"
already present (one acknowledgment recorded), a second
`initiate_escalation` for the same alert id does not fail — it returns
status "initiated" — and it does not leave the first record untouched: the
stored record's acknowledgment list resets from 1 to 0 because the record
is overwritten by a fresh one. -/
theorem C1_counterexample :
    (dictGet c1St2 "c1").map Escalation.is_resolved = some false ∧
    (dictGet c1St2 "c1").map (fun e => e.acknowledgments.length) = some 1 ∧
    (initiate_escalation c1St2 { id := "c1", severity := some "high" } 600).2.status
      = "initiated" ∧
    (dictGet (initiate_escalation c1St2 { id := "c1", severity := some "high" } 600).1
        "c1").map (fun e => e.acknowledgments.length) = some 0 := by decide

/-- C1 (amended): a repeated `initiate_escalation` for an alert id with an
active unresolved record never fails — it always returns status "initiated"
— and it replaces the existing record with a freshly initialized one
(empty acknowledgments, unresolved, started now) rather than leaving the
first record untouched; the store still never holds two records for the
same alert id. -/
theorem C1_reinitiate_overwrites (st : List (String × Escalation)) (alert : Alert)
    (now : Int) (h : countKey st alert.id ≤ 1) :
    (initiate_escalation st alert now).2.status = "initiated" ∧
    countKey (initiate_escalation st alert now).1 alert.id = 1 ∧
    ∃ e, dictGet (initiate_escalation st alert now).1 alert.id = some e ∧
      e.acknowledgments = [] ∧ e.is_resolved = false ∧ e.started_at = now := by
  refine ⟨rfl, countKey_dictSet st alert.id _ h, ?_⟩
  refine ⟨_, dictGet_dictSet_self st alert.id _, ?_, ?_, ?_⟩ <;>
    by_cases hc : alert.severity.getD "medium" = "critical" <;>
      simp [hc, escalate_critical_alert]

/-- C1 witness: re-initiating over the acknowledged "c1" record at t=600. -/
theorem C1_witness :
    (initiate_escalation c1St2 { id := "c1", severity := some "high" } 600).2.status
      = "initiated" ∧
    countKey (initiate_escalation c1St2 { id := "c1", severity := some "high" } 600).1
      "c1" = 1 ∧
    ∃ e, dictGet (initiate_escalation c1St2 { id := "c1", severity := some "high" } 600).1
        "c1" = some e ∧
      e.acknowledgments = [] ∧ e.is_resolved = false ∧ e.started_at = 600 :=
  C1_reinitiate_overwrites c1St2 { id := "c1", severity := some "high" } 600 (by decide)

end Rockfall

namespace Rockfall

/-- C5: for a critical-severity alert, `initiate_escalation` creates a record
whose dispatch audit trail holds one record per level from the critical
rule's initial level (level 1) through its max level (level 4) inclusive, in
ascending order, all timestamped at the initiation instant, and whose
`current_level` ends at the rule's max level. -/
theorem C5_critical_fanout (st : List (String × Escalation)) (alert : Alert)
    (now : Int) (h : alert.severity = some "critical") :
    ∃ e, dictGet (initiate_escalation st alert now).1 alert.id = some e ∧
      e.rule = criticalRule ∧
      criticalRule.initial_level = .level_1 ∧
      criticalRule.max_level = .level_4 ∧
      e.notifications_sent.map DispatchRecord.level =
        [.level_1, .level_2, .level_3, .level_4] ∧
      (∀ d ∈ e.notifications_sent, d.timestamp = now) ∧
      e.current_level = criticalRule.max_level := by
  have hsev : alert.severity.getD "medium" = "critical" := by rw [h]; rfl
  have hrule : escalation_rules "critical" = some criticalRule := rfl
  refine ⟨_, dictGet_dictSet_self st alert.id _, ?_, ?_, ?_, ?_, ?_, ?_⟩ <;>
    simp [hsev, hrule, criticalRule, escalate_critical_alert]

/-- C5 witness: a concrete critical alert initiated at t=0. -/
theorem C5_witness :
    ∃ e, dictGet (initiate_escalation [] { id := "w5", severity := some "critical" } 0).1
        "w5" = some e ∧
      e.rule = criticalRule ∧
      criticalRule.initial_level = .level_1 ∧
      criticalRule.max_level = .level_4 ∧
      e.notifications_sent.map DispatchRecord.level =
        [.level_1, .level_2, .level_3, .level_4] ∧
      (∀ d ∈ e.notifications_sent, d.timestamp = 0) ∧
      e.current_level = criticalRule.max_level :=
  C5_critical_fanout [] { id := "w5", severity := some "critical" } 0 rfl

/-- C6 counterexample: for a critical alert, `initiate_escalation` returns
"level_1" in its level field (the rule's initial level), not "level_4",
even though the stored record's `current_level` has been fanned out to
level 4 — refuting "initiate returns level = L4". -/
theorem C6_counterexample :
    (initiate_escalation [] { id := "c6", severity := some "critical" } 0).2.initial_level
      = "level_1" ∧
    (dictGet (initiate_escalation [] { id := "c6", severity := some "critical" } 0).1
        "c6").map Escalation.current_level = some EscalationLevel.level_4 ∧
    ("level_1" : String) ≠ "level_4" := by decide

/-- C6 (amended): for a critical-severity alert, `initiate_escalation`
returns the rule's initial level (level 1) in its `initial_level` field —
the starting level, not the final level — while the stored record's
`current_level` is level 4 after the fan-out. -/
theorem C6_returns_initial_level (st : List (String × Escalation)) (alert : Alert)
    (now : Int) (h : alert.severity = some "critical") :
    (initiate_escalation st alert now).2.initial_level = EscalationLevel.level_1.value ∧
    (dictGet (initiate_escalation st alert now).1 alert.id).map Escalation.current_level
      = some .level_4 := by
  have hsev : alert.severity.getD "medium" = "critical" := by rw [h]; rfl
  have hrule : escalation_rules "critical" = some criticalRule := rfl
  constructor
  · simp [initiate_escalation, hsev, hrule, criticalRule, EscalationLevel.value]
  · simp [initiate_escalation, hsev, hrule, dictGet_dictSet_self,
      escalate_critical_alert]

/-- C6 witness: the concrete critical alert "w6" initiated at t=0. -/
theorem C6_witness :
    (initiate_escalation [] { id := "w6", severity := some "critical" } 0).2.initial_level
      = EscalationLevel.level_1.value ∧
    (dictGet (initiate_escalation [] { id := "w6", severity := some "critical" } 0).1
        "w6").map Escalation.current_level = some .level_4 :=
  C6_returns_initial_level [] { id := "w6", severity := some "critical" } 0 rfl

/-- C8: for an alert whose severity string is none of the four recognized
severities, `initiate_escalation` falls back to the medium rule: the created
record carries the medium rule with its initial level, the returned timeout
is the medium rule's, and the call reports "initiated" rather than failing
silently. -/
theorem C8_fallback_medium (st : List (String × Escalation)) (alert : Alert)
    (s : String) (now : Int) (hs : alert.severity = some s)
    (h1 : s ≠ "low") (h2 : s ≠ "medium") (h3 : s ≠ "high") (h4 : s ≠ "critical") :
    (initiate_escalation st alert now).2.status = "initiated" ∧
    (initiate_escalation st alert now).2.next_escalation_in
      = mediumRule.escalation_time_minutes ∧
    ∃ e, dictGet (initiate_escalation st alert now).1 alert.id = some e ∧
      e.rule = mediumRule ∧
      e.current_level = mediumRule.initial_level ∧
      e.last_escalated_at = now ∧
      e.is_resolved = false := by
  have hsev : alert.severity.getD "medium" = s := by rw [hs]; rfl
  have hrule : escalation_rules s = none := by simp [escalation_rules, h1, h2, h3, h4]
  refine ⟨rfl, ?_, ?_⟩
  · simp [initiate_escalation, hsev, hrule]
  · refine ⟨_, dictGet_dictSet_self st alert.id _, ?_, ?_, ?_, ?_⟩ <;>
      simp [hsev, hrule, h4]

/-- C8 witness: severity "banana" is unrecognized and falls back to the
medium rule. -/
theorem C8_witness :
    (initiate_escalation [] { id := "w8", severity := some "banana" } 0).2.status
      = "initiated" ∧
    (initiate_escalation [] { id := "w8", severity := some "banana" } 0).2.next_escalation_in
      = mediumRule.escalation_time_minutes ∧
    ∃ e, dictGet (initiate_escalation [] { id := "w8", severity := some "banana" } 0).1
        "w8" = some e ∧
      e.rule = mediumRule ∧
      e.current_level = mediumRule.initial_level ∧
      e.last_escalated_at = 0 ∧
      e.is_resolved = false :=
  C8_fallback_medium [] { id := "w8", severity := some "banana" } "banana" 0 rfl
    (by decide) (by decide) (by decide) (by decide)

end Rockfall

namespace Rockfall

/-- C7 counterexample: with a limit of N = 1 send per minute, two sends at
t = 59 and t = 61 — only 2 seconds apart, so the second lies inside a
rolling 60-second window already holding N = 1 prior send — are both
accepted, refuting the claimed sliding-window behavior: the counter is a
fixed window that resets 60 seconds after construction, between the two
sends. -/
theorem C7_counterexample :
    run_sends 1 { sent_count := 0, last_reset := 0 } [59, 61] = [true, true] ∧
    (61 : Int) - 59 < 60 := by decide

/-- C7 (amended): each adapter's limiter is a fixed window, not a sliding
one. Within a window (less than 60 seconds since the last reset), the
(N+1)-th send — one arriving with the counter already at the limit N —
returns false immediately with no state change (for email, regardless of
whether the SMTP transport would have succeeded), and a send under the
limit is accepted and counted; once the window rolls over (the seconds
component of the elapsed time reaches 60) the counter resets and the next
send is accepted again. An under-limit email send succeeds and is counted
only when the SMTP dialog succeeds; a transport failure returns false
without incrementing the counter. Sends straddling a reset can therefore
exceed N within a rolling 60-second span (see the counterexample). -/
theorem C7_fixed_window_rate_limit :
    (∀ limit : Nat, ∀ s : RateLimiterState, ∀ now : Int,
      limit ≤ s.sent_count → 0 ≤ now - s.last_reset → now - s.last_reset < 60 →
      send_sms limit s now = (false, s)) ∧
    (∀ limit : Nat, ∀ s : RateLimiterState, ∀ now : Int,
      s.sent_count < limit → 0 ≤ now - s.last_reset → now - s.last_reset < 60 →
      send_sms limit s now = (true, { s with sent_count := s.sent_count + 1 })) ∧
    (∀ limit : Nat, ∀ s : RateLimiterState, ∀ now : Int,
      0 < limit → (now - s.last_reset) % 86400 ≥ 60 →
      send_sms limit s now = (true, { sent_count := 1, last_reset := now })) ∧
    (∀ limit : Nat, ∀ s : RateLimiterState, ∀ now : Int, ∀ smtp_ok : Bool,
      limit ≤ s.sent_count → 0 ≤ now - s.last_reset → now - s.last_reset < 60 →
      send_email limit s now smtp_ok = (false, s)) ∧
    (∀ limit : Nat, ∀ s : RateLimiterState, ∀ now : Int,
      s.sent_count < limit → 0 ≤ now - s.last_reset → now - s.last_reset < 60 →
      send_email limit s now true = (true, { s with sent_count := s.sent_count + 1 }) ∧
      send_email limit s now false = (false, s)) ∧
    (∀ limit : Nat, ∀ s : RateLimiterState, ∀ now : Int,
      0 < limit → (now - s.last_reset) % 86400 ≥ 60 →
      send_email limit s now true = (true, { sent_count := 1, last_reset := now }) ∧
      send_email limit s now false = (false, { sent_count := 0, last_reset := now })) := by
  have hmod : ∀ d : Int, 0 ≤ d → d < 60 → ¬(d % 86400 ≥ 60) := by
    intro d h0 h60
    omega
  refine ⟨?_, ?_, ?_, ?_, ?_, ?_⟩
  · intro limit s now hcount h0 h60
    have := hmod _ h0 h60
    simp [send_sms, check_rate_limit, this, Nat.not_lt_of_le hcount]
  · intro limit s now hcount h0 h60
    have := hmod _ h0 h60
    simp [send_sms, check_rate_limit, this, hcount]
  · intro limit s now hpos hreset
    simp [send_sms, check_rate_limit, hreset, hpos]
  · intro limit s now smtp_ok hcount h0 h60
    have := hmod _ h0 h60
    simp [send_email, check_rate_limit, this, Nat.not_lt_of_le hcount]
  · intro limit s now hcount h0 h60
    have := hmod _ h0 h60
    constructor <;> simp [send_email, check_rate_limit, this, hcount]
  · intro limit s now hpos hreset
    constructor <;> simp [send_email, check_rate_limit, hreset, hpos]

/-- C7 witness: in one window a full counter rejects the next SMS and the
next email send (whatever the transport would do); an under-limit SMS is
accepted and counted; an under-limit email is counted only when the
transport succeeds and returns false with an unchanged counter when it
fails; at the window boundary a full counter accepts again. -/
theorem C7_witness :
    send_sms 1 { sent_count := 1, last_reset := 0 } 30 =
      (false, { sent_count := 1, last_reset := 0 }) ∧
    send_sms 2 { sent_count := 1, last_reset := 0 } 30 =
      (true, { sent_count := 2, last_reset := 0 }) ∧
    send_sms 1 { sent_count := 1, last_reset := 0 } 60 =
      (true, { sent_count := 1, last_reset := 60 }) ∧
    send_email 1 { sent_count := 1, last_reset := 0 } 30 true =
      (false, { sent_count := 1, last_reset := 0 }) ∧
    (send_email 2 { sent_count := 1, last_reset := 0 } 30 true =
      (true, { sent_count := 2, last_reset := 0 }) ∧
     send_email 2 { sent_count := 1, last_reset := 0 } 30 false =
      (false, { sent_count := 1, last_reset := 0 })) ∧
    (send_email 1 { sent_count := 1, last_reset := 0 } 60 true =
      (true, { sent_count := 1, last_reset := 60 }) ∧
     send_email 1 { sent_count := 1, last_reset := 0 } 60 false =
      (false, { sent_count := 0, last_reset := 60 })) :=
  ⟨C7_fixed_window_rate_limit.1 1 { sent_count := 1, last_reset := 0 } 30
      (by decide) (by decide) (by decide),
   C7_fixed_window_rate_limit.2.1 2 { sent_count := 1, last_reset := 0 } 30
      (by decide) (by decide) (by decide),
   C7_fixed_window_rate_limit.2.2.1 1 { sent_count := 1, last_reset := 0 } 60
      (by decide) (by decide),
   C7_fixed_window_rate_limit.2.2.2.1 1 { sent_count := 1, last_reset := 0 } 30 true
      (by decide) (by decide) (by decide),
   C7_fixed_window_rate_limit.2.2.2.2.1 2 { sent_count := 1, last_reset := 0 } 30
      (by decide) (by decide) (by decide),
   C7_fixed_window_rate_limit.2.2.2.2.2 1 { sent_count := 1, last_reset := 0 } 60
      (by decide) (by decide)⟩

end Rockfall
